import Mathlib

/-!
Verification of the chart-builder module
`src/deepnote/notebooks/data_visualizations.py` of the
US-Automotive-Trade-Analysis repository.

The module is a set of six stateless wrapper functions over plotly
(`plot_line`, `plot_scatter`, `plot_dumbbell`, `plot_bar`,
`plot_line_grid`, `plot_animated_scatter`).  Each function is embedded
below as a Lean function from the dataset argument and the column
selectors to `Except PErr Figure × PyData`: the first component is the
returned figure or the Python exception raised, the second component is
the post-call state of the dataset object (every pandas operation the
module uses is a non-mutating read, which the embedding makes explicit
by threading the frame through each operation).

The parts of pandas and plotly that the module exercises are modelled
to the extent the module observes them: a DataFrame is named columns
over row-major cells, a figure is its traces, animation frames and
layout metadata, and the plotly-express entry points build the traces
and default layout fields they document.
-/

set_option autoImplicit false

namespace TradeViz

/-- A scalar cell of the tabular dataset: a string or an integer (the
notebooks use country names, years and numeric trade values). -/
inductive Val where
  | str (s : String)
  | num (n : Int)
deriving DecidableEq, Repr

/-- How plotly renders a cell value as text (subplot titles built from the
group values, animation frame names). -/
def Val.toStr : Val → String
  | .str s => s
  | .num n => toString n

/-- Total comparison on cell values, used to model `sort_values` (columns
are homogeneous in the notebooks; numbers are placed before strings). -/
def Val.le : Val → Val → Bool
  | .num a, .num b => decide (a ≤ b)
  | .num _, .str _ => true
  | .str _, .num _ => false
  | .str a, .str b => !decide (b < a)

/-- A pandas DataFrame: named columns over row-major cells. -/
structure Frame where
  columns : List String
  rows : List (List Val)
deriving DecidableEq, Repr

/-- `len(df)`: the number of rows. -/
def Frame.nRows (df : Frame) : Nat := df.rows.length

/-- `c in df.columns`. -/
def Frame.hasCol (df : Frame) (c : String) : Bool := df.columns.contains c

/-- Position of a column name in a column list (leftmost match). -/
def idxOfCol (c : String) : List String → Option Nat
  | [] => none
  | d :: ds => if d = c then some 0 else (idxOfCol c ds).map (· + 1)

/-- Position of a column in the frame. -/
def Frame.colIdx (df : Frame) (c : String) : Option Nat :=
  idxOfCol c df.columns

/-- The cell of row `r` at column position `i`. -/
def cellAt (r : List Val) (i : Nat) : Val := r.getD i (.str "")

/-- `df[c]` as a plain list of values (callers validate presence first;
an absent column yields `[]`, a branch no embedded function reaches). -/
def Frame.col (df : Frame) (c : String) : List Val :=
  match df.colIdx c with
  | some i => df.rows.map (fun r => cellAt r i)
  | none => []

/-- The Python exceptions that the module or the libraries it calls can
raise on the paths the module exercises. -/
inductive PErr where
  | typeError (msg : String)
  | valueError (msg : String)
  | keyError (key : String)
  | attributeError (msg : String)
  | zeroDivisionError
deriving DecidableEq, Repr

/-- The value passed as the `df` argument.  `isinstance(df, pd.DataFrame)`
is true only for `pdf`.  Plotly express also accepts a plain dict of
columns (`pdict`, same tabular content but not a pandas DataFrame);
`pyNone` stands for a value plotly express cannot interpret at all. -/
inductive PyData where
  | pdf (df : Frame)
  | pdict (df : Frame)
  | pyNone
deriving DecidableEq, Repr

/-- `isinstance(df, pd.DataFrame)`. -/
def PyData.isDF : PyData → Bool
  | .pdf _ => true
  | _ => false

/-- A Python argument that is either one column name or a list of column
names (the module normalizes with `y_cols = [y] if isinstance(y, str)
else y`). -/
inductive StrOrList where
  | one (s : String)
  | many (l : List String)
deriving DecidableEq, Repr

/-- `[y] if isinstance(y, str) else y`. -/
def StrOrList.toList : StrOrList → List String
  | .one s => [s]
  | .many l => l

/-- Keyword arguments forwarded verbatim (`**kwargs`); opaque to the
module, recorded on the figure objects they are forwarded to. -/
abbrev Kwargs := List (String × String)

/-- The `layout.title` configuration of a figure. -/
structure TitleCfg where
  text : Option String := none
  x : Option ℚ := none
  xanchor : Option String := none
  yanchor : Option String := none
  fontSize : Option Nat := none
deriving DecidableEq, Repr

/-- One axis configuration (`axisType` embeds the plotly key `type`). -/
structure AxisCfg where
  title : Option String := none
  showgrid : Option Bool := none
  axisType : Option String := none
  categoryorder : Option String := none
  categoryarray : Option (List Val) := none
  tickmode : Option String := none
  tickvals : Option (List Val) := none
  ticktext : Option (List Val) := none
deriving DecidableEq, Repr

/-- The figure layout metadata the module reads or writes. -/
structure Layout where
  title : TitleCfg := {}
  xaxis : AxisCfg := {}
  yaxis : AxisCfg := {}
  legendTitle : Option String := none
  height : Option Nat := none
  width : Option Nat := none
  showlegend : Option Bool := none
  marginT : Option Nat := none
  marginL : Option Nat := none
  marginR : Option Nat := none
  marginB : Option Nat := none
  template : Option String := none
deriving DecidableEq, Repr

/-- One plotly trace; `none` entries in `xs`/`ys` are Python `None`
points (the invisible legend placeholders use `x=[None], y=[None]`).
`subplotRow`/`subplotCol`/`secondaryY` record the subplot cell the trace
was added to, `extra` the `**kwargs` forwarded verbatim. -/
structure Trace where
  xs : List (Option Val) := []
  ys : List (Option Val) := []
  mode : Option String := none
  name : Option String := none
  lineColor : Option String := none
  lineWidth : Option Nat := none
  markerColor : Option String := none
  markerSize : Option Nat := none
  sizeVals : List Val := []
  hovertextVals : List Val := []
  customdata : List Val := []
  orientation : Option String := none
  showlegend : Option Bool := none
  hovertemplate : Option String := none
  subplotRow : Option Nat := none
  subplotCol : Option Nat := none
  secondaryY : Option Bool := none
  extra : Kwargs := []
deriving DecidableEq, Repr

/-- One animation frame: a name and the traces shown in that frame. -/
structure AnimFrame where
  name : String
  data : List Trace
deriving DecidableEq, Repr

/-- A plotly figure: traces, layout, animation frames, and the subplot
grid metadata created by `make_subplots`. -/
structure Figure where
  data : List Trace := []
  layout : Layout := {}
  frames : List AnimFrame := []
  gridRows : Nat := 0
  gridCols : Nat := 0
  subplotTitles : List String := []
  specsSecondaryY : List (List Bool) := []
  subplotYTitles : List (Nat × Nat × Bool × String) := []
deriving DecidableEq, Repr

/-- `fig.add_trace(t)`. -/
def Figure.addTrace (fig : Figure) (t : Trace) : Figure :=
  { fig with data := fig.data ++ [t] }

/-- `fig.add_trace(t, row=…, col=…, secondary_y=…)`. -/
def Figure.addTraceAt (fig : Figure) (t : Trace) (row col : Nat) (sy : Bool) : Figure :=
  fig.addTrace { t with subplotRow := some row, subplotCol := some col, secondaryY := some sy }

/-- `fig.update_yaxes(title_text=…, row=…, col=…, secondary_y=…)`. -/
def Figure.setSubplotYTitle (fig : Figure) (row col : Nat) (sy : Bool) (txt : String) : Figure :=
  { fig with subplotYTitles := fig.subplotYTitles ++ [(row, col, sy, txt)] }

/-- `df.columns`: a read; pandas indexing does not mutate the frame, so
the post-call object state is returned unchanged alongside the value. -/
def Pd.columnsOf (df : Frame) : List String × Frame := (df.columns, df)

/-- `df[c].tolist()`: a read. -/
def Pd.tolist (df : Frame) (c : String) : List Val × Frame := (df.col c, df)

/-- `df[c]` used as a plot series: a read. -/
def Pd.getCol (df : Frame) (c : String) : List Val × Frame := (df.col c, df)

/-- `df.iterrows()`: a read yielding the rows. -/
def Pd.iterrows (df : Frame) : List (List Val) × Frame := (df.rows, df)

/-- `len(df)`: a read. -/
def Pd.len (df : Frame) : Nat × Frame := (df.nRows, df)

/-- `df[df[c] == v]`: boolean-mask row selection.  Raises `KeyError(c)`
when the column is absent; builds a new frame and never mutates the
receiver. -/
def Pd.filterEq (df : Frame) (c : String) (v : Val) : Except PErr Frame × Frame :=
  match df.colIdx c with
  | none => (.error (.keyError c), df)
  | some i => (.ok { df with rows := df.rows.filter (fun r => cellAt r i == v) }, df)

/-- Insertion step of the row sort used to model `sort_values`. -/
def insertLe {α : Type} (le : α → α → Bool) (a : α) : List α → List α
  | [] => [a]
  | b :: bs => if le a b then a :: b :: bs else b :: insertLe le a bs

/-- Insertion sort used to model `sort_values`. -/
def sortLe {α : Type} (le : α → α → Bool) : List α → List α
  | [] => []
  | a :: as => insertLe le a (sortLe le as)

/-- `frame.sort_values(c)`: returns a sorted copy of the frame; raises
`KeyError` when the key column is absent. -/
def Pd.sortValuesBy (df : Frame) (c : String) : Except PErr Frame :=
  match df.colIdx c with
  | none => .error (.keyError c)
  | some i => .ok { df with rows := sortLe (fun r s => Val.le (cellAt r i) (cellAt s i)) df.rows }

/-- A single-quote character, for Python `repr` of strings. -/
def sq : String := (Char.ofNat 39).toString

/-- Python `repr` of a string (as it appears inside a formatted list). -/
def pyStrRepr (s : String) : String := sq ++ s ++ sq

/-- Python `str` of a list of strings, as interpolated by the f-strings
of the module (e.g. `Missing columns in DataFrame: ['A', 'B']`). -/
def pyListRepr (l : List String) : String :=
  "[" ++ String.intercalate ", " (l.map pyStrRepr) ++ "]"

/-- The `TypeError` message of the five validating functions. -/
def dfTypeMsg : String := "`df` must be a pandas DataFrame."

/-- The `ValueError` message of `plot_line`, `plot_scatter` and
`plot_dumbbell`: it enumerates exactly the missing column names. -/
def missingMsg (missing : List String) : String :=
  "Missing columns in DataFrame: " ++ pyListRepr missing

/-- The run of 26 spaces that the backslash line continuation inside the
f-strings of `plot_bar` and `plot_line_grid` splices into the message
(the leading indentation of the continued source line). -/
def contSpaces : String := "                          "

/-- The `ValueError` message of `plot_bar`: it names both required
columns and the available columns, not the missing ones. -/
def barMsg (x y : String) (cols : List String) : String :=
  "DataFrame must contain columns: " ++ x ++ " and " ++ y ++ "." ++
    contSpaces ++ "Available columns: " ++ pyListRepr cols

/-- The `ValueError` message of `plot_line_grid`: it names the three
required columns and the available columns, not the missing ones. -/
def gridMsg (x y1 y2 : String) (cols : List String) : String :=
  "DataFrame must contain columns: " ++ x ++ "," ++ y1 ++ " and " ++ y2 ++ "." ++
    contSpaces ++ "Available columns: " ++ pyListRepr cols

/-- The message of the empty-groups `ValueError` of `plot_line_grid`.
The source line is `raise ValueError("No {group_col} to plot")` with no
`f` prefix, so the braces are literal (written `\x7b`/`\x7d` here). -/
def gridEmptyMsg : String := "No \x7bgroup_col\x7d to plot"

/-- The hover template f-string of `plot_animated_scatter`; the doubled
braces of the source are literal plotly placeholders (`\x7b`/`\x7d` are
`{`/`}`). -/
def hoverTemplate (x_col y_col animation_col : String) : String :=
  "<b>%\x7bhovertext\x7d</b><br><br>" ++
    x_col ++ ": $%\x7bx:,.0f\x7d<br>" ++
    y_col ++ ": %\x7by:.2f\x7d%<br>" ++
    animation_col ++ ": %\x7bcustomdata[0]\x7d<extra></extra>"

/-- How plotly express interprets its `data_frame` argument: it accepts
a pandas DataFrame or a dict of columns alike, and raises a `ValueError`
for values it cannot interpret. -/
def pxData : PyData → Except PErr Frame
  | .pdf df => .ok df
  | .pdict df => .ok df
  | .pyNone => .error (.valueError "px: data_frame is not a DataFrame or dict of columns")

/-- `px.line(df, x=x, y=y, **kwargs)`: one line trace per y column.  With
a list `y` plotly names each trace after its column, titles the legend
`variable` and the y axis `value`; axis titles default to the column
names. -/
def pxLine (df : Frame) (x : String) (y : StrOrList) (kwargs : Kwargs) : Figure :=
  match y with
  | .one yc =>
      { data := [{ xs := (df.col x).map some, ys := (df.col yc).map some,
                   mode := some "lines", extra := kwargs }],
        layout := { xaxis := { title := some x }, yaxis := { title := some yc } } }
  | .many ycs =>
      { data := ycs.map (fun yc =>
          { xs := (df.col x).map some, ys := (df.col yc).map some,
            mode := some "lines", name := some yc, extra := kwargs }),
        layout := { xaxis := { title := some x }, yaxis := { title := some "value" },
                    legendTitle := some "variable" } }

/-- `px.scatter(df, x=x, y=y, **kwargs)`: like `pxLine` with marker
traces. -/
def pxScatter (df : Frame) (x : String) (y : StrOrList) (kwargs : Kwargs) : Figure :=
  match y with
  | .one yc =>
      { data := [{ xs := (df.col x).map some, ys := (df.col yc).map some,
                   mode := some "markers", extra := kwargs }],
        layout := { xaxis := { title := some x }, yaxis := { title := some yc } } }
  | .many ycs =>
      { data := ycs.map (fun yc =>
          { xs := (df.col x).map some, ys := (df.col yc).map some,
            mode := some "markers", name := some yc, extra := kwargs }),
        layout := { xaxis := { title := some x }, yaxis := { title := some "value" },
                    legendTitle := some "variable" } }

/-- `px.bar(df, x=x, y=y, orientation=…, height=…, **kwargs)`. -/
def pxBar (df : Frame) (x y : String) (orientation : String) (height : Nat)
    (kwargs : Kwargs) : Figure :=
  { data := [{ xs := (df.col x).map some, ys := (df.col y).map some,
               orientation := some orientation, extra := kwargs }],
    layout := { xaxis := { title := some x }, yaxis := { title := some y },
                height := some height } }

/-- `make_subplots(rows=…, cols=…, subplot_titles=…, shared_xaxes=False,
specs=…)`. -/
def make_subplots (rows cols : Nat) (subplot_titles : List String)
    (specs : List (List Bool)) : Figure :=
  { gridRows := rows, gridCols := cols, subplotTitles := subplot_titles,
    specsSecondaryY := specs }

/-- Distinct values of a column in order of first appearance, as plotly
enumerates animation frames and color groups. -/
def distinctVals (vs : List Val) : List Val :=
  vs.foldl (fun acc v => if acc.contains v then acc else acc ++ [v]) []

/-- The rows of `df` whose cell at position `i` is `a` and whose cell at
position `j` is `c`. -/
def rowsWhere2 (df : Frame) (i j : Nat) (a c : Val) : List (List Val) :=
  df.rows.filter (fun r => cellAt r i == a && cellAt r j == c)

/-- The trace that `px.scatter` builds for one animation value `a` and
one color-group value `c` (hover names from the color column, size from
the size column, `custom_data` from the animation column). -/
def animTrace (df : Frame) (xi yi si ci ai : Nat) (a c : Val) : Trace :=
  { xs := (rowsWhere2 df ai ci a c).map (fun r => some (cellAt r xi)),
    ys := (rowsWhere2 df ai ci a c).map (fun r => some (cellAt r yi)),
    sizeVals := (rowsWhere2 df ai ci a c).map (fun r => cellAt r si),
    hovertextVals := (rowsWhere2 df ai ci a c).map (fun r => cellAt r ci),
    customdata := (rowsWhere2 df ai ci a c).map (fun r => cellAt r ai),
    mode := some "markers", name := some c.toStr }

/-- `px.scatter(df, x=…, y=…, size=…, color=…, animation_frame=…,
animation_group=…, custom_data=[…], size_max=60, title=…, hover_name=…,
template="plotly_white")`.  Plotly express raises a `ValueError` itself
when a named column is absent.  One animation frame is built per
distinct value of the animation column, with one trace per color value;
the base traces are the first frame's traces.  The title is plain text
(no centering, default font) and axis/legend titles default to the
column names. -/
def pxScatterAnimated (df : Frame) (x_col y_col size_col color_col anim_col : String)
    (title : String) : Except PErr Figure :=
  match df.colIdx x_col, df.colIdx y_col, df.colIdx size_col,
      df.colIdx color_col, df.colIdx anim_col with
  | some xi, some yi, some si, some ci, some ai =>
      .ok { data := match distinctVals (df.col anim_col) with
              | [] => []
              | a :: _ => (distinctVals (df.col color_col)).map
                  (fun c => animTrace df xi yi si ci ai a c),
            frames := (distinctVals (df.col anim_col)).map (fun a =>
              { name := a.toStr,
                data := (distinctVals (df.col color_col)).map
                  (fun c => animTrace df xi yi si ci ai a c) }),
            layout := { title := { text := some title },
                        xaxis := { title := some x_col },
                        yaxis := { title := some y_col },
                        legendTitle := some color_col,
                        template := some "plotly_white" } }
  | _, _, _, _, _ => .error (.valueError "px: a named column is not in data_frame")

/-- The `fig.update_layout(xaxis_title=…, yaxis_title=…, legend_title=…,
title={"text": …, "x": 0.5, "xanchor": "center", "yanchor": "top",
"font": {"size": 15}})` block shared verbatim by `plot_line`,
`plot_scatter`, `plot_dumbbell` and `plot_bar`.  Plotly's update
semantics assign each value, so an omitted (`None`) label clears the
engine default and leaves the axis title absent. -/
def stdTitle (title : Option String) : TitleCfg :=
  { text := title, x := some (1/2 : ℚ), xanchor := some "center",
    yanchor := some "top", fontSize := some 15 }

def updateStdLayout (fig : Figure) (x_label y_label legend_label title : Option String) :
    Figure :=
  { fig with layout := { fig.layout with
      xaxis := { fig.layout.xaxis with title := x_label },
      yaxis := { fig.layout.yaxis with title := y_label },
      legendTitle := legend_label,
      title := stdTitle title } }

/-- `plot_line` (data_visualizations.py, lines 15-62). -/
def plot_line (data : PyData) (x : String) (y : StrOrList)
    (x_label y_label legend_label title : Option String) (kwargs : Kwargs) :
    Except PErr Figure × PyData :=
  match data with
  | .pdf df =>
      let y_cols := y.toList
      let (cols, df) := Pd.columnsOf df
      let missing_cols := (x :: y_cols).filter (fun c => !cols.contains c)
      if missing_cols.isEmpty then
        let fig := pxLine df x y kwargs
        let fig := updateStdLayout fig x_label y_label legend_label title
        (.ok fig, .pdf df)
      else
        (.error (.valueError (missingMsg missing_cols)), .pdf df)
  | d => (.error (.typeError dfTypeMsg), d)

/-- `plot_scatter` (lines 65-116); after the shared layout block it runs
`fig.update_xaxes(title_text=x_label)` so the x-axis title is forced
identical across generated facets. -/
def plot_scatter (data : PyData) (x : String) (y : StrOrList)
    (x_label y_label legend_label title : Option String) (kwargs : Kwargs) :
    Except PErr Figure × PyData :=
  match data with
  | .pdf df =>
      let y_cols := y.toList
      let (cols, df) := Pd.columnsOf df
      let missing_cols := (x :: y_cols).filter (fun c => !cols.contains c)
      if missing_cols.isEmpty then
        let fig := pxScatter df x y kwargs
        let fig := updateStdLayout fig x_label y_label legend_label title
        let fig := { fig with layout := { fig.layout with
            xaxis := { fig.layout.xaxis with title := x_label } } }
        (.ok fig, .pdf df)
      else
        (.error (.valueError (missingMsg missing_cols)), .pdf df)
  | d => (.error (.typeError dfTypeMsg), d)

/-- `plot_dumbbell` (lines 119-227).  With a list-valued `y` the line
`df[y].tolist()` raises `AttributeError` (a DataFrame has no `tolist`);
the notebooks always pass a single column name. -/
def plot_dumbbell (data : PyData) (x1 x2 : String) (y : StrOrList)
    (x_label y_label legend_label title : Option String) (kwargs : Kwargs) :
    Except PErr Figure × PyData :=
  match data with
  | .pdf df =>
      let y_cols := y.toList
      let (cols, df) := Pd.columnsOf df
      let missing_cols := (x1 :: x2 :: y_cols).filter (fun c => !cols.contains c)
      if missing_cols.isEmpty then
        match y with
        | .many _ =>
            (.error (.attributeError "DataFrame object has no attribute tolist"), .pdf df)
        | .one yc =>
            let (y_categories, df) := Pd.tolist df yc
            let (rws, df) := Pd.iterrows df
            let i1 := (df.colIdx x1).getD 0
            let i2 := (df.colIdx x2).getD 0
            let iy := (df.colIdx yc).getD 0
            let fig : Figure := {}
            let fig := rws.foldl (fun fg r =>
              fg.addTrace { xs := [some (cellAt r i1), some (cellAt r i2)],
                            ys := [some (cellAt r iy), some (cellAt r iy)],
                            mode := some "lines", markerSize := some 10,
                            lineColor := some "grey", lineWidth := some 2,
                            showlegend := some false, extra := kwargs }) fig
            let (xv1, df) := Pd.getCol df x1
            let (yv1, df) := Pd.getCol df yc
            let fig := fig.addTrace { xs := xv1.map some, ys := yv1.map some,
                                      mode := some "markers", name := some x1,
                                      markerColor := some "blue", markerSize := some 12 }
            let (xv2, df) := Pd.getCol df x2
            let (yv2, df) := Pd.getCol df yc
            let fig := fig.addTrace { xs := xv2.map some, ys := yv2.map some,
                                      mode := some "markers", name := some x2,
                                      markerColor := some "pink", markerSize := some 12 }
            let fig := { fig with layout := { fig.layout with
                yaxis := { fig.layout.yaxis with showgrid := some false } } }
            let fig := updateStdLayout fig x_label y_label legend_label title
            let fig := { fig with layout := { fig.layout with
                yaxis := { fig.layout.yaxis with
                  axisType := some "category", categoryorder := some "array",
                  categoryarray := some y_categories, tickmode := some "array",
                  tickvals := some y_categories, ticktext := some y_categories } } }
            (.ok fig, .pdf df)
      else
        (.error (.valueError (missingMsg missing_cols)), .pdf df)
  | d => (.error (.typeError dfTypeMsg), d)

/-- `plot_bar` (lines 230-293). -/
def plot_bar (data : PyData) (x y : String) (orientation : String)
    (x_label y_label legend_label title : Option String) (kwargs : Kwargs) :
    Except PErr Figure × PyData :=
  match data with
  | .pdf df =>
      let (cols, df) := Pd.columnsOf df
      if !cols.contains y || !cols.contains x then
        (.error (.valueError (barMsg x y cols)), .pdf df)
      else
        let (n, df) := Pd.len df
        let height := max 400 (30 * n + 120)
        let fig := pxBar df x y orientation height kwargs
        let fig := updateStdLayout fig x_label y_label legend_label title
        let fig := { fig with layout := { fig.layout with
            yaxis := { fig.layout.yaxis with categoryorder := some "total ascending" },
            xaxis := { fig.layout.xaxis with showgrid := some false } } }
        (.ok fig, .pdf df)
  | d => (.error (.typeError dfTypeMsg), d)

/-- One per-group data trace of `plot_line_grid` (legend suppressed,
fixed line color, `**kwargs` forwarded). -/
def gridDataTrace (gd : Frame) (x ycol : String) (color : String) (kwargs : Kwargs) :
    Trace :=
  { xs := (gd.col x).map some, ys := (gd.col ycol).map some,
    mode := some "lines+markers", lineColor := some color,
    showlegend := some false, extra := kwargs }

/-- The per-group loop of `plot_line_grid` (lines 350-390): for the
`i`-th group, select its rows by boolean mask, sort the copy by `x`, add
the two suppressed-legend traces at subplot `(i // n_cols + 1,
i % n_cols + 1)` and record the per-subplot y-axis titles.  The caller's
frame is threaded through and returned alongside the result. -/
def gridLoop (x y1 y2 group_col : String) (kwargs : Kwargs) (n_cols : Nat) :
    Frame → List (Nat × Val) → Figure → Except PErr Figure × Frame
  | df, [], fig => (.ok fig, df)
  | df, (i, group) :: rest, fig =>
      let row := i / n_cols + 1
      let col := i % n_cols + 1
      match Pd.filterEq df group_col group with
      | (.error e, df1) => (.error e, df1)
      | (.ok sel, df1) =>
          match Pd.sortValuesBy sel x with
          | .error e => (.error e, df1)
          | .ok group_data =>
              let fig := fig.addTraceAt (gridDataTrace group_data x y1 "blue" kwargs)
                row col false
              let fig := fig.addTraceAt (gridDataTrace group_data x y2 "red" kwargs)
                row col true
              let fig := (fig.setSubplotYTitle row col false y1).setSubplotYTitle
                row col true y2
              gridLoop x y1 y2 group_col kwargs n_cols df1 rest fig

/-- The invisible legend-placeholder trace of `plot_line_grid`
(`go.Scatter(x=[None], y=[None], mode="lines", line=dict(color=…),
name=…)` added to subplot (1, 1)). -/
def gridPlaceholder (nm color : String) (sy : Bool) : Trace :=
  { xs := [none], ys := [none], mode := some "lines", lineColor := some color,
    name := some nm, subplotRow := some 1, subplotCol := some 1,
    secondaryY := some sy }

/-- `plot_line_grid` (lines 296-414).  Note: the grouping column is
never validated (a missing `group_col` surfaces as a pandas `KeyError`
inside the loop), and `n_cols = 0` raises `ZeroDivisionError` at the
`math.ceil(len(groups) / n_cols)` line. -/
def plot_line_grid (data : PyData) (x y1 y2 group_col : String) (groups : List Val)
    (n_cols : Nat) (title : Option String) (kwargs : Kwargs) :
    Except PErr Figure × PyData :=
  match data with
  | .pdf df =>
      let (cols, df) := Pd.columnsOf df
      if !cols.contains y1 || !cols.contains y2 || !cols.contains x then
        (.error (.valueError (gridMsg x y1 y2 cols)), .pdf df)
      else if groups.length == 0 then
        (.error (.valueError gridEmptyMsg), .pdf df)
      else if n_cols == 0 then
        (.error .zeroDivisionError, .pdf df)
      else
        let n_rows := (groups.length + n_cols - 1) / n_cols
        let specs := (List.range n_rows).map (fun _ => (List.range n_cols).map (fun _ => true))
        let subplot_titles := groups.map Val.toStr ++
          List.replicate (n_rows * n_cols - groups.length) ""
        let fig := make_subplots n_rows n_cols subplot_titles specs
        match gridLoop x y1 y2 group_col kwargs n_cols df groups.enum fig with
        | (.error e, df1) => (.error e, .pdf df1)
        | (.ok fig, df1) =>
            let fig := fig.addTraceAt (gridPlaceholder y1 "blue" false) 1 1 false
            let fig := fig.addTraceAt (gridPlaceholder y2 "red" true) 1 1 true
            let fig := { fig with layout := { fig.layout with
                height := some (300 * n_rows), width := some 1200,
                title := { fig.layout.title with text := title },
                showlegend := some true } }
            let fig := { fig with layout := { fig.layout with
                marginT := some 80, marginL := some 50, marginR := some 50,
                marginB := some 50 } }
            (.ok fig, .pdf df1)
  | d => (.error (.typeError dfTypeMsg), d)

/-- `trace.hovertemplate = hover_template`. -/
def setHover (ht : String) (t : Trace) : Trace := { t with hovertemplate := some ht }

/-- `plot_animated_scatter` (lines 417-466).  The function performs no
`isinstance` check on `df`: the dataset goes straight to `px.scatter`.
After building the figure it applies the hover template to the base
traces (`fig.update_traces`) and then to every trace of every animation
frame. -/
def plot_animated_scatter (data : PyData) (x_col y_col size_col color_col : String)
    (title : String) (animation_col : String) : Except PErr Figure × PyData :=
  match pxData data with
  | .error e => (.error e, data)
  | .ok df =>
      match pxScatterAnimated df x_col y_col size_col color_col animation_col title with
      | .error e => (.error e, data)
      | .ok fig =>
          let hover_template := hoverTemplate x_col y_col animation_col
          let fig := { fig with data := fig.data.map (setHover hover_template) }
          let newFrames := fig.frames.map
            (fun fr => { fr with data := fr.data.map (setHover hover_template) })
          let fig := { fig with frames := newFrames }
          (.ok fig, data)

deriving instance DecidableEq for Except

/-- A column contained in a column list has a position. -/
theorem idxOfCol_of_contains {c : String} : ∀ {l : List String},
    l.contains c = true → ∃ i, idxOfCol c l = some i := by
  intro l h
  induction l with
  | nil => simp [List.contains] at h
  | cons d ds ih =>
    by_cases hd : d = c
    · exact ⟨0, by simp [idxOfCol, hd]⟩
    · have h' : ds.contains c = true := by
        simp only [List.contains_cons, Bool.or_eq_true, beq_iff_eq] at h
        rcases h with h | h
        · exact absurd h.symm hd
        · exact h
      obtain ⟨i, hi⟩ := ih h'
      exact ⟨i + 1, by simp [idxOfCol, hd, hi]⟩

/-- A column absent from a column list has no position. -/
theorem idxOfCol_of_not_contains {c : String} : ∀ {l : List String},
    l.contains c = false → idxOfCol c l = none := by
  intro l h
  induction l with
  | nil => rfl
  | cons d ds ih =>
    simp only [List.contains_cons, Bool.or_eq_false_iff, beq_eq_false_iff_ne] at h
    have hd : d ≠ c := fun e => h.1 e.symm
    have := ih (by simpa using h.2)
    simp [idxOfCol, hd, this]

/-- Boolean-mask selection returns the receiver frame unchanged. -/
theorem Pd.filterEq_state (df : Frame) (c : String) (v : Val) :
    (Pd.filterEq df c v).2 = df := by
  unfold Pd.filterEq
  cases df.colIdx c <;> rfl

/-- The per-group loop threads the caller's frame through unchanged:
every pandas operation it performs is a read or builds a new frame. -/
theorem gridLoop_state (x y1 y2 gc : String) (kw : Kwargs) (nc : Nat) :
    ∀ (l : List (Nat × Val)) (df : Frame) (fig : Figure),
      (gridLoop x y1 y2 gc kw nc df l fig).2 = df := by
  intro l
  induction l with
  | nil => intro df fig; rfl
  | cons p rest ih =>
    intro df fig
    obtain ⟨i, g⟩ := p
    simp only [gridLoop]
    rcases hf : Pd.filterEq df gc g with ⟨r, df1⟩
    have hdf1 : df1 = df := by
      have hst := Pd.filterEq_state df gc g
      rw [hf] at hst; exact hst
    cases r with
    | error e => simpa using hdf1
    | ok sel =>
      dsimp only
      cases hs : Pd.sortValuesBy sel x with
      | error e => simpa using hdf1
      | ok gd =>
        dsimp only
        exact (ih df1 _).trans hdf1

/-- When the per-group loop succeeds, it has left the layout and the
grid metadata of the figure unchanged and appended exactly two
legend-suppressed traces per group. -/
theorem gridLoop_ok (x y1 y2 gc : String) (kw : Kwargs) (nc : Nat) :
    ∀ (l : List (Nat × Val)) (df : Frame) (fig f : Figure),
      (gridLoop x y1 y2 gc kw nc df l fig).1 = .ok f →
      f.layout = fig.layout ∧ f.gridRows = fig.gridRows ∧
      ∃ ts, f.data = fig.data ++ ts ∧ ts.length = 2 * l.length ∧
        ∀ t ∈ ts, t.showlegend = some false := by
  intro l
  induction l with
  | nil =>
    intro df fig f h
    simp only [gridLoop] at h
    cases h
    exact ⟨rfl, rfl, [], by simp, by simp, by simp⟩
  | cons p rest ih =>
    intro df fig f h
    obtain ⟨i, g⟩ := p
    simp only [gridLoop] at h
    rcases hf : Pd.filterEq df gc g with ⟨r, df1⟩
    rw [hf] at h
    cases r with
    | error e => simp at h
    | ok sel =>
      dsimp only at h
      cases hs : Pd.sortValuesBy sel x with
      | error e => rw [hs] at h; simp at h
      | ok gd =>
        rw [hs] at h
        dsimp only at h
        obtain ⟨hlay, hrows, ts, hdata, hlen, hleg⟩ := ih df1 _ f h
        refine ⟨hlay, hrows, ?_⟩
        refine ⟨[{ gridDataTrace gd x y1 "blue" kw with
            subplotRow := some (i / nc + 1), subplotCol := some (i % nc + 1),
            secondaryY := some false },
          { gridDataTrace gd x y2 "red" kw with
            subplotRow := some (i / nc + 1), subplotCol := some (i % nc + 1),
            secondaryY := some true }] ++ ts, ?_, ?_, ?_⟩
        · simpa [Figure.addTraceAt, Figure.addTrace, Figure.setSubplotYTitle] using hdata
        · simp [hlen]; ring
        · intro t ht
          rcases List.mem_append.mp ht with ht | ht
          · simp only [List.mem_cons, List.not_mem_nil, or_false] at ht
            rcases ht with rfl | rfl <;> rfl
          · exact hleg t ht

/-- Concrete single-column frame (column `QQQ`, one row) used by the
witnesses and counterexamples. -/
def wDf1 : Frame := { columns := ["QQQ"], rows := [[.num 1]] }

/-- Concrete 50-row frame. -/
def wDf50 : Frame := { columns := ["A", "B"], rows := List.replicate 50 [.num 1, .num 2] }

/-- Concrete frame for the line-grid calls. -/
def wDfGrid : Frame :=
  { columns := ["X", "Y1", "Y2", "G"],
    rows := [[.num 1, .num 2, .num 3, .str "a"], [.num 2, .num 5, .num 6, .str "b"]] }

/-- Ten group values, as in the spec's ten-groups example. -/
def wGroups10 : List Val :=
  [.str "a", .str "b", .str "c", .str "d", .str "e",
   .str "f", .str "g", .str "h", .str "i", .str "j"]

/-- Concrete frame for the animated-scatter calls (two animation values,
two color groups). -/
def wDfAnim : Frame :=
  { columns := ["X", "Y", "S", "C", "A"],
    rows := [[.num 1, .num 2, .num 3, .str "us", .num 2000],
             [.num 4, .num 5, .num 6, .str "mx", .num 2000],
             [.num 7, .num 8, .num 9, .str "us", .num 2001]] }

/-- Concrete frame for the dumbbell call, rows ordered Mexico, Canada,
China. -/
def wDfDumb : Frame :=
  { columns := ["Country", "Export", "Import"],
    rows := [[.str "Mexico", .num 10, .num 20], [.str "Canada", .num 30, .num 40],
             [.str "China", .num 50, .num 60]] }

/-- C1 counterexample: a dict of columns is not a pandas DataFrame, yet
`plot_animated_scatter` raises no type error and returns a figure — the
function performs no `isinstance` check on its dataset argument
(data_visualizations.py lines 417-466 contain no validation), so the
claim that every function of the module raises a type error on a
non-DataFrame dataset fails on it. -/
theorem dataset_type_check_cex :
    (plot_animated_scatter (.pdict wDfAnim) "X" "Y" "S" "C" "t" "A").1.isOk = true := by
  decide

/-- C1 (amended): the five validating functions — `plot_line`,
`plot_scatter`, `plot_dumbbell`, `plot_bar`, `plot_line_grid` — raise a
`TypeError` on every dataset argument that is not a pandas DataFrame;
`plot_animated_scatter` performs no dataset type check, and with a
dict-of-columns dataset naming existing columns it returns a figure. -/
theorem dataset_type_check :
    (∀ (d : PyData) (x : String) (y : StrOrList) (xl yl ll t : Option String)
        (kw : Kwargs), d.isDF = false →
        (plot_line d x y xl yl ll t kw).1 = .error (.typeError dfTypeMsg)) ∧
    (∀ (d : PyData) (x : String) (y : StrOrList) (xl yl ll t : Option String)
        (kw : Kwargs), d.isDF = false →
        (plot_scatter d x y xl yl ll t kw).1 = .error (.typeError dfTypeMsg)) ∧
    (∀ (d : PyData) (x1 x2 : String) (y : StrOrList) (xl yl ll t : Option String)
        (kw : Kwargs), d.isDF = false →
        (plot_dumbbell d x1 x2 y xl yl ll t kw).1 = .error (.typeError dfTypeMsg)) ∧
    (∀ (d : PyData) (x y orient : String) (xl yl ll t : Option String)
        (kw : Kwargs), d.isDF = false →
        (plot_bar d x y orient xl yl ll t kw).1 = .error (.typeError dfTypeMsg)) ∧
    (∀ (d : PyData) (x y1 y2 gc : String) (groups : List Val) (nc : Nat)
        (t : Option String) (kw : Kwargs), d.isDF = false →
        (plot_line_grid d x y1 y2 gc groups nc t kw).1 = .error (.typeError dfTypeMsg)) ∧
    (∀ (df : Frame) (xc yc sc cc t ac : String),
        df.hasCol xc = true → df.hasCol yc = true → df.hasCol sc = true →
        df.hasCol cc = true → df.hasCol ac = true →
        (plot_animated_scatter (.pdict df) xc yc sc cc t ac).1.isOk = true) := by
  refine ⟨?_, ?_, ?_, ?_, ?_, ?_⟩
  · intro d x y xl yl ll t kw h
    cases d with
    | pdf df => simp [PyData.isDF] at h
    | pdict df => rfl
    | pyNone => rfl
  · intro d x y xl yl ll t kw h
    cases d with
    | pdf df => simp [PyData.isDF] at h
    | pdict df => rfl
    | pyNone => rfl
  · intro d x1 x2 y xl yl ll t kw h
    cases d with
    | pdf df => simp [PyData.isDF] at h
    | pdict df => rfl
    | pyNone => rfl
  · intro d x y orient xl yl ll t kw h
    cases d with
    | pdf df => simp [PyData.isDF] at h
    | pdict df => rfl
    | pyNone => rfl
  · intro d x y1 y2 gc groups nc t kw h
    cases d with
    | pdf df => simp [PyData.isDF] at h
    | pdict df => rfl
    | pyNone => rfl
  · intro df xc yc sc cc t ac h1 h2 h3 h4 h5
    obtain ⟨i1, e1⟩ := idxOfCol_of_contains h1
    obtain ⟨i2, e2⟩ := idxOfCol_of_contains h2
    obtain ⟨i3, e3⟩ := idxOfCol_of_contains h3
    obtain ⟨i4, e4⟩ := idxOfCol_of_contains h4
    obtain ⟨i5, e5⟩ := idxOfCol_of_contains h5
    simp only [plot_animated_scatter, pxData, pxScatterAnimated, Frame.colIdx]
    rw [e1, e2, e3, e4, e5]
    rfl

/-- Witness for the amended C1 theorem at concrete inputs. -/
theorem dataset_type_check_witness :
    (plot_line .pyNone "X" (.one "Y") none none none none []).1 =
      .error (.typeError dfTypeMsg) ∧
    (plot_scatter .pyNone "X" (.one "Y") none none none none []).1 =
      .error (.typeError dfTypeMsg) ∧
    (plot_dumbbell .pyNone "E" "I" (.one "C") none none none none []).1 =
      .error (.typeError dfTypeMsg) ∧
    (plot_bar .pyNone "X" "Y" "h" none none none none []).1 =
      .error (.typeError dfTypeMsg) ∧
    (plot_line_grid .pyNone "X" "Y1" "Y2" "G" [] 3 none []).1 =
      .error (.typeError dfTypeMsg) ∧
    (plot_animated_scatter (.pdict wDfAnim) "X" "Y" "S" "C" "tt" "A").1.isOk = true :=
  ⟨dataset_type_check.1 .pyNone "X" (.one "Y") none none none none [] (by decide),
    dataset_type_check.2.1 .pyNone "X" (.one "Y") none none none none [] (by decide),
    dataset_type_check.2.2.1 .pyNone "E" "I" (.one "C") none none none none [] (by decide),
    dataset_type_check.2.2.2.1 .pyNone "X" "Y" "h" none none none none [] (by decide),
    dataset_type_check.2.2.2.2.1 .pyNone "X" "Y1" "Y2" "G" [] 3 none [] (by decide),
    dataset_type_check.2.2.2.2.2 wDfAnim "X" "Y" "S" "C" "tt" "A"
      (by decide) (by decide) (by decide) (by decide) (by decide)⟩

/-- C2 counterexample: with dataset columns `["QQQ"]` and only `ZZZ`
missing, `plot_bar`'s `ValueError` message also names the present
column `QQQ` (it prints "DataFrame must contain columns: QQQ and ZZZ.
… Available columns: ['QQQ']"), so it does not list exactly the set of
missing names (`missingMsg ["ZZZ"]` is the module's exact listing of the
missing set); and with only the grouping column missing,
`plot_line_grid` raises a pandas `KeyError`, not a `ValueError`. -/
theorem missing_columns_message_cex :
    (plot_bar (.pdf wDf1) "QQQ" "ZZZ" "h" none none none none []).1 =
      .error (.valueError (barMsg "QQQ" "ZZZ" ["QQQ"])) ∧
    barMsg "QQQ" "ZZZ" ["QQQ"] ≠ missingMsg ["ZZZ"] ∧
    (plot_line_grid (.pdf wDfGrid) "X" "Y1" "Y2" "GG" wGroups10 3 none []).1 =
      .error (.keyError "GG") :=
  ⟨by decide, by decide, by decide⟩

/-- C2 (amended): when referenced columns are absent, `plot_line`,
`plot_scatter` and `plot_dumbbell` raise a `ValueError` whose message
lists exactly the missing names; `plot_bar` and `plot_line_grid` raise a
`ValueError` when their x/y columns are missing, but the message names
all required columns and all available columns instead of exactly the
missing ones; and `plot_line_grid` never validates the grouping column —
a missing `group_col` with a non-empty group list surfaces as a pandas
`KeyError` from inside the loop. -/
theorem missing_columns_validation :
    (∀ (df : Frame) (x : String) (y : StrOrList) (xl yl ll t : Option String)
        (kw : Kwargs),
        (x :: y.toList).filter (fun c => !df.columns.contains c) ≠ [] →
        (plot_line (.pdf df) x y xl yl ll t kw).1 =
          .error (.valueError (missingMsg
            ((x :: y.toList).filter (fun c => !df.columns.contains c))))) ∧
    (∀ (df : Frame) (x : String) (y : StrOrList) (xl yl ll t : Option String)
        (kw : Kwargs),
        (x :: y.toList).filter (fun c => !df.columns.contains c) ≠ [] →
        (plot_scatter (.pdf df) x y xl yl ll t kw).1 =
          .error (.valueError (missingMsg
            ((x :: y.toList).filter (fun c => !df.columns.contains c))))) ∧
    (∀ (df : Frame) (x1 x2 : String) (y : StrOrList) (xl yl ll t : Option String)
        (kw : Kwargs),
        (x1 :: x2 :: y.toList).filter (fun c => !df.columns.contains c) ≠ [] →
        (plot_dumbbell (.pdf df) x1 x2 y xl yl ll t kw).1 =
          .error (.valueError (missingMsg
            ((x1 :: x2 :: y.toList).filter (fun c => !df.columns.contains c))))) ∧
    (∀ (df : Frame) (x y orient : String) (xl yl ll t : Option String) (kw : Kwargs),
        df.hasCol y = false ∨ df.hasCol x = false →
        (plot_bar (.pdf df) x y orient xl yl ll t kw).1 =
          .error (.valueError (barMsg x y df.columns))) ∧
    (∀ (df : Frame) (x y1 y2 gc : String) (groups : List Val) (nc : Nat)
        (t : Option String) (kw : Kwargs),
        df.hasCol y1 = false ∨ df.hasCol y2 = false ∨ df.hasCol x = false →
        (plot_line_grid (.pdf df) x y1 y2 gc groups nc t kw).1 =
          .error (.valueError (gridMsg x y1 y2 df.columns))) ∧
    (∀ (df : Frame) (x y1 y2 gc : String) (g : Val) (groups : List Val) (nc : Nat)
        (t : Option String) (kw : Kwargs),
        df.hasCol x = true → df.hasCol y1 = true → df.hasCol y2 = true →
        df.hasCol gc = false → nc ≠ 0 →
        (plot_line_grid (.pdf df) x y1 y2 gc (g :: groups) nc t kw).1 =
          .error (.keyError gc)) := by
  refine ⟨?_, ?_, ?_, ?_, ?_, ?_⟩
  · intro df x y xl yl ll t kw h
    simp only [plot_line, Pd.columnsOf]
    cases hm : (x :: y.toList).filter (fun c => !df.columns.contains c) with
    | nil => exact absurd hm h
    | cons a as => simp
  · intro df x y xl yl ll t kw h
    simp only [plot_scatter, Pd.columnsOf]
    cases hm : (x :: y.toList).filter (fun c => !df.columns.contains c) with
    | nil => exact absurd hm h
    | cons a as => simp
  · intro df x1 x2 y xl yl ll t kw h
    simp only [plot_dumbbell, Pd.columnsOf]
    cases hm : (x1 :: x2 :: y.toList).filter (fun c => !df.columns.contains c) with
    | nil => exact absurd hm h
    | cons a as => simp
  · intro df x y orient xl yl ll t kw h
    simp only [plot_bar, Pd.columnsOf]
    rcases h with h | h <;> simp only [Frame.hasCol] at h <;> simp at h <;> simp [h]
  · intro df x y1 y2 gc groups nc t kw h
    simp only [plot_line_grid, Pd.columnsOf]
    rcases h with h | h | h <;> simp only [Frame.hasCol] at h <;> simp at h <;> simp [h]
  · intro df x y1 y2 gc g groups nc t kw hx hy1 hy2 hgc hnc
    simp only [Frame.hasCol] at hx hy1 hy2 hgc
    have hidx := idxOfCol_of_not_contains hgc
    simp only [plot_line_grid, Pd.columnsOf, hx, hy1, hy2]
    have hlen : ((g :: groups).length == 0) = false := by simp
    have hncf : (nc == 0) = false := beq_eq_false_iff_ne.mpr hnc
    simp only [hlen, hncf, Bool.not_true, Bool.or_self, Bool.false_or,
      Bool.or_false, if_false, List.enum_cons]
    simp only [gridLoop, Pd.filterEq, Frame.colIdx, hidx]
    simp

/-- Witness for the amended C2 theorem: concrete calls exercising all
six validation branches. -/
theorem missing_columns_validation_witness :
    (plot_line (.pdf wDf1) "QQQ" (.many ["ZZZ", "WWW"]) none none none none []).1 =
      .error (.valueError (missingMsg ["ZZZ", "WWW"])) ∧
    (plot_scatter (.pdf wDf1) "RRR" (.one "QQQ") none none none none []).1 =
      .error (.valueError (missingMsg ["RRR"])) ∧
    (plot_dumbbell (.pdf wDf1) "QQQ" "SSS" (.one "TTT") none none none none []).1 =
      .error (.valueError (missingMsg ["SSS", "TTT"])) ∧
    (plot_bar (.pdf wDf1) "QQQ" "ZZZ" "h" none none none none []).1 =
      .error (.valueError (barMsg "QQQ" "ZZZ" ["QQQ"])) ∧
    (plot_line_grid (.pdf wDf1) "X" "Y1" "Y2" "G" [] 3 none []).1 =
      .error (.valueError (gridMsg "X" "Y1" "Y2" ["QQQ"])) ∧
    (plot_line_grid (.pdf wDfGrid) "X" "Y1" "Y2" "GG" wGroups10 3 none []).1 =
      .error (.keyError "GG") :=
  ⟨missing_columns_validation.1 wDf1 "QQQ" (.many ["ZZZ", "WWW"]) none none none none []
      (by decide),
    missing_columns_validation.2.1 wDf1 "RRR" (.one "QQQ") none none none none []
      (by decide),
    missing_columns_validation.2.2.1 wDf1 "QQQ" "SSS" (.one "TTT") none none none none []
      (by decide),
    missing_columns_validation.2.2.2.1 wDf1 "QQQ" "ZZZ" "h" none none none none []
      (Or.inl (by decide)),
    missing_columns_validation.2.2.2.2.1 wDf1 "X" "Y1" "Y2" "G" [] 3 none []
      (Or.inl (by decide)),
    missing_columns_validation.2.2.2.2.2 wDfGrid "X" "Y1" "Y2" "GG" (.str "a")
      [.str "b", .str "c", .str "d", .str "e", .str "f", .str "g", .str "h",
        .str "i", .str "j"] 3 none []
      (by decide) (by decide) (by decide) (by decide) (by decide)⟩

/-- C3: every trace of every animation frame of a figure returned by
`plot_animated_scatter` carries the same hover template string that the
function applied to the base traces (the loop over `fig.frames` at
data_visualizations.py lines 459-464 reapplies the template that
`fig.update_traces` set at line 456). -/
theorem animated_hovertemplate_uniform :
    ∀ (data : PyData) (xc yc sc cc t ac : String) (fig : Figure),
      (plot_animated_scatter data xc yc sc cc t ac).1 = .ok fig →
      (∀ tr ∈ fig.data, tr.hovertemplate = some (hoverTemplate xc yc ac)) ∧
      (∀ fr ∈ fig.frames, ∀ tr ∈ fr.data,
        tr.hovertemplate = some (hoverTemplate xc yc ac)) := by
  intro data xc yc sc cc t ac fig h
  simp only [plot_animated_scatter] at h
  cases hd : pxData data with
  | error e => rw [hd] at h; simp at h
  | ok df =>
    rw [hd] at h
    dsimp only at h
    cases hp : pxScatterAnimated df xc yc sc cc ac t with
    | error e => rw [hp] at h; simp at h
    | ok fig0 =>
      rw [hp] at h
      dsimp only at h
      injection h with h
      subst h
      constructor
      · intro tr htr
        rcases List.mem_map.mp htr with ⟨t0, _, rfl⟩
        rfl
      · intro fr hfr tr htr
        rcases List.mem_map.mp hfr with ⟨fr0, _, rfl⟩
        rcases List.mem_map.mp htr with ⟨t0, _, rfl⟩
        rfl

/-- The figure returned by the concrete animated-scatter call. -/
def wAnimFig : Figure :=
  ((plot_animated_scatter (.pdf wDfAnim) "X" "Y" "S" "C" "t" "A").1.toOption.getD {})

/-- Its first animation frame. -/
def wAnimFr : AnimFrame := wAnimFig.frames.getD 0 { name := "", data := [] }

/-- The first trace of that frame. -/
def wAnimTr : Trace := wAnimFr.data.getD 0 {}

/-- Witness for C3 at a concrete three-row dataset with two animation
values. -/
theorem animated_hovertemplate_uniform_witness :
    wAnimTr.hovertemplate = some (hoverTemplate "X" "Y" "A") := by
  have h := animated_hovertemplate_uniform (.pdf wDfAnim) "X" "Y" "S" "C" "t" "A"
    wAnimFig (by rfl)
  exact h.2 wAnimFr (by decide) wAnimTr (by decide)

/-- C4: for every dumbbell call that returns a figure, the figure's
y axis is categorical (`type="category"`, `categoryorder="array"`) with
category array equal to the y column's values in the dataset's row order
(`y_categories = df[y].tolist()` at line 160, applied at lines 217-224). -/
theorem dumbbell_category_order :
    ∀ (df : Frame) (x1 x2 yc : String) (xl yl ll t : Option String) (kw : Kwargs)
      (fig : Figure),
      (plot_dumbbell (.pdf df) x1 x2 (.one yc) xl yl ll t kw).1 = .ok fig →
      fig.layout.yaxis.axisType = some "category" ∧
      fig.layout.yaxis.categoryorder = some "array" ∧
      fig.layout.yaxis.categoryarray = some (df.col yc) := by
  intro df x1 x2 yc xl yl ll t kw fig h
  simp only [plot_dumbbell, Pd.columnsOf, Pd.tolist, Pd.iterrows, Pd.getCol] at h
  split at h
  · dsimp only at h
    injection h with h
    subst h
    exact ⟨rfl, rfl, rfl⟩
  · simp at h

/-- The figure returned by the concrete dumbbell call on rows ordered
Mexico, Canada, China. -/
def wDumbFig : Figure :=
  ((plot_dumbbell (.pdf wDfDumb) "Export" "Import" (.one "Country")
    (some "Value (USD)") none none (some "Top Trade Partners") []).1.toOption.getD {})

/-- Witness for C4: the categorical axis order is exactly
[Mexico, Canada, China], the dataset's row order, not sorted. -/
theorem dumbbell_category_order_witness :
    wDumbFig.layout.yaxis.categoryarray =
      some [.str "Mexico", .str "Canada", .str "China"] ∧
    wDumbFig.layout.yaxis.axisType = some "category" ∧
    wDumbFig.layout.yaxis.categoryorder = some "array" := by
  have h := dumbbell_category_order wDfDumb "Export" "Import" "Country"
    (some "Value (USD)") none none (some "Top Trade Partners") [] wDumbFig (by rfl)
  exact ⟨h.2.2.trans (by decide), h.1, h.2.1⟩

/-- C5: every figure returned by `plot_bar` has height
`max(400, 30 * row_count + 120)` (line 273), preserved by the later
layout update. -/
theorem bar_height_formula :
    ∀ (df : Frame) (x y orient : String) (xl yl ll t : Option String) (kw : Kwargs)
      (fig : Figure),
      (plot_bar (.pdf df) x y orient xl yl ll t kw).1 = .ok fig →
      fig.layout.height = some (max 400 (30 * df.nRows + 120)) := by
  intro df x y orient xl yl ll t kw fig h
  simp only [plot_bar, Pd.columnsOf, Pd.len] at h
  split at h
  · simp at h
  · dsimp only at h
    injection h with h
    subst h
    rfl

/-- The figure returned by the concrete 50-row bar call. -/
def wBarFig : Figure :=
  ((plot_bar (.pdf wDf50) "A" "B" "h" none none none none []).1.toOption.getD {})

/-- Witness for C5: a 50-row dataset yields height 1620. -/
theorem bar_height_formula_witness : wBarFig.layout.height = some 1620 := by
  have h := bar_height_formula wDf50 "A" "B" "h" none none none none [] wBarFig (by rfl)
  exact h.trans (by decide)

/-- C6: every figure returned by `plot_line_grid` has a subplot grid of
`math.ceil(len(groups) / n_cols)` rows — `(g + n_cols - 1) / n_cols` in
natural-number arithmetic, the two agree for every positive `n_cols` —
figure height `300 * n_rows` and fixed width `1200` (lines 333 and
407-410). -/
theorem line_grid_dimensions :
    ∀ (data : PyData) (x y1 y2 gc : String) (groups : List Val) (nc : Nat)
      (t : Option String) (kw : Kwargs) (fig : Figure),
      (plot_line_grid data x y1 y2 gc groups nc t kw).1 = .ok fig →
      fig.gridRows = (groups.length + nc - 1) / nc ∧
      fig.layout.height = some (300 * ((groups.length + nc - 1) / nc)) ∧
      fig.layout.width = some 1200 := by
  intro data x y1 y2 gc groups nc t kw fig h
  cases data with
  | pdict df => simp [plot_line_grid] at h
  | pyNone => simp [plot_line_grid] at h
  | pdf df =>
    simp only [plot_line_grid, Pd.columnsOf] at h
    split at h
    · simp at h
    · split at h
      · simp at h
      · split at h
        · simp at h
        · split at h
          · simp at h
          · rename_i fig0 df1 heq
            dsimp only at h
            injection h with h
            subst h
            obtain ⟨hlay, hrows, -⟩ := gridLoop_ok x y1 y2 gc kw nc groups.enum df
              _ fig0 (congrArg Prod.fst heq)
            refine ⟨?_, rfl, rfl⟩
            simpa [Figure.addTraceAt, Figure.addTrace, Figure.setSubplotYTitle,
              make_subplots] using hrows

/-- C7: in every figure returned by `plot_line_grid`, the per-group data
traces (two per group) all have their legend entry suppressed, and the
only legend-bearing traces are the two invisible placeholders — blue
named after the first series, red after the second — attached to subplot
(1, 1) (lines 350-406). -/
theorem line_grid_legend_traces :
    ∀ (data : PyData) (x y1 y2 gc : String) (groups : List Val) (nc : Nat)
      (t : Option String) (kw : Kwargs) (fig : Figure),
      (plot_line_grid data x y1 y2 gc groups nc t kw).1 = .ok fig →
      (∃ ts, fig.data = ts ++ [gridPlaceholder y1 "blue" false,
          gridPlaceholder y2 "red" true] ∧
        ts.length = 2 * groups.length ∧
        ∀ tr ∈ ts, tr.showlegend = some false) ∧
      fig.data.filter (fun tr => !(tr.showlegend == some false)) =
        [gridPlaceholder y1 "blue" false, gridPlaceholder y2 "red" true] := by
  intro data x y1 y2 gc groups nc t kw fig h
  cases data with
  | pdict df => simp [plot_line_grid] at h
  | pyNone => simp [plot_line_grid] at h
  | pdf df =>
    simp only [plot_line_grid, Pd.columnsOf] at h
    split at h
    · simp at h
    · split at h
      · simp at h
      · split at h
        · simp at h
        · split at h
          · simp at h
          · rename_i fig0 df1 heq
            dsimp only at h
            injection h with h
            subst h
            obtain ⟨hlay, hrows, ts, hdata, hlen, hleg⟩ :=
              gridLoop_ok x y1 y2 gc kw nc groups.enum df _ fig0
                (congrArg Prod.fst heq)
            have hdata' : fig0.data = ts := by simpa [make_subplots] using hdata
            have hlen' : ts.length = 2 * groups.length := by
              simpa [List.enum_length] using hlen
            have hfil : ts.filter (fun tr => !(tr.showlegend == some false)) = [] := by
              refine List.filter_eq_nil_iff.mpr ?_
              intro tr htr
              simp [hleg tr htr]
            constructor
            · refine ⟨ts, ?_, hlen', hleg⟩
              simp [Figure.addTraceAt, Figure.addTrace, gridPlaceholder, hdata']
            · simp [Figure.addTraceAt, Figure.addTrace, gridPlaceholder, hdata',
                List.filter_append, hfil]

/-- The figure returned by the concrete ten-group grid call with
`n_cols = 3`. -/
def wGridFig : Figure :=
  ((plot_line_grid (.pdf wDfGrid) "X" "Y1" "Y2" "G" wGroups10 3 none []).1.toOption.getD {})

/-- Witness for C6: ten groups with three columns yield four rows,
height 1200 and width 1200. -/
theorem line_grid_dimensions_witness :
    wGridFig.gridRows = 4 ∧ wGridFig.layout.height = some 1200 ∧
    wGridFig.layout.width = some 1200 := by
  have h := line_grid_dimensions (.pdf wDfGrid) "X" "Y1" "Y2" "G" wGroups10 3 none []
    wGridFig (by rfl)
  exact ⟨h.1.trans (by decide), h.2.1.trans (by decide), h.2.2⟩

/-- Witness for C7 at the concrete ten-group call: exactly the two
placeholders bear a legend entry among the 22 traces. -/
theorem line_grid_legend_traces_witness :
    wGridFig.data.filter (fun tr => !(tr.showlegend == some false)) =
      [gridPlaceholder "Y1" "blue" false, gridPlaceholder "Y2" "red" true] ∧
    wGridFig.data.length = 22 := by
  have h := line_grid_legend_traces (.pdf wDfGrid) "X" "Y1" "Y2" "G" wGroups10 3 none []
    wGridFig (by rfl)
  exact ⟨h.2, by decide⟩

/-- The figure returned by the concrete line call with all labels set. -/
def wLineFig : Figure :=
  ((plot_line (.pdf wDfGrid) "X" (.many ["Y1", "Y2"]) (some "xx") (some "yy")
    (some "ll") (some "tt") []).1.toOption.getD {})

/-- The figure returned by the concrete scatter call. -/
def wScatFig : Figure :=
  ((plot_scatter (.pdf wDfGrid) "X" (.one "Y1") (some "xx") none none
    (some "tt") []).1.toOption.getD {})

/-- The figure returned by the concrete grid call with a title. -/
def wGridFigT : Figure :=
  ((plot_line_grid (.pdf wDfGrid) "X" "Y1" "Y2" "G" wGroups10 3
    (some "T") []).1.toOption.getD {})

/-- C8 counterexample: `plot_line_grid` accepts this input and returns a
figure whose title has no font size and no x position set (lines 407-410
run `update_layout(title_text=title)` only), so the claim that every
function centers the title at x = 0.5 with font size 15 fails on it. -/
theorem layout_styling_cex :
    (plot_line_grid (.pdf wDfGrid) "X" "Y1" "Y2" "G" wGroups10 3 (some "T") []).1 =
      .ok wGridFigT ∧
    wGridFigT.layout.title.fontSize ≠ some 15 ∧
    wGridFigT.layout.title.x ≠ some (1/2 : ℚ) :=
  ⟨by rfl, by decide, by decide⟩

/-- C8 (amended): `plot_line`, `plot_scatter`, `plot_dumbbell` and
`plot_bar` return figures with the centered title (x = 0.5, anchored
center/top, font size 15), axis titles equal to the provided labels
(absent when omitted) and legend title equal to the provided label;
`plot_line_grid` sets only the title text (default position and font, no
label parameters exist), and `plot_animated_scatter` sets only the title
text with engine-default axis and legend titles. -/
theorem layout_styling :
    (∀ (df : Frame) (x : String) (y : StrOrList) (xl yl ll t : Option String)
        (kw : Kwargs) (fig : Figure),
        (plot_line (.pdf df) x y xl yl ll t kw).1 = .ok fig →
        fig.layout.title = stdTitle t ∧
        fig.layout.xaxis.title = xl ∧ fig.layout.yaxis.title = yl ∧
        fig.layout.legendTitle = ll) ∧
    (∀ (df : Frame) (x : String) (y : StrOrList) (xl yl ll t : Option String)
        (kw : Kwargs) (fig : Figure),
        (plot_scatter (.pdf df) x y xl yl ll t kw).1 = .ok fig →
        fig.layout.title = stdTitle t ∧
        fig.layout.xaxis.title = xl ∧ fig.layout.yaxis.title = yl ∧
        fig.layout.legendTitle = ll) ∧
    (∀ (df : Frame) (x1 x2 yc : String) (xl yl ll t : Option String)
        (kw : Kwargs) (fig : Figure),
        (plot_dumbbell (.pdf df) x1 x2 (.one yc) xl yl ll t kw).1 = .ok fig →
        fig.layout.title = stdTitle t ∧
        fig.layout.xaxis.title = xl ∧ fig.layout.yaxis.title = yl ∧
        fig.layout.legendTitle = ll) ∧
    (∀ (df : Frame) (x y orient : String) (xl yl ll t : Option String)
        (kw : Kwargs) (fig : Figure),
        (plot_bar (.pdf df) x y orient xl yl ll t kw).1 = .ok fig →
        fig.layout.title = stdTitle t ∧
        fig.layout.xaxis.title = xl ∧ fig.layout.yaxis.title = yl ∧
        fig.layout.legendTitle = ll) ∧
    (∀ (data : PyData) (x y1 y2 gc : String) (groups : List Val) (nc : Nat)
        (t : Option String) (kw : Kwargs) (fig : Figure),
        (plot_line_grid data x y1 y2 gc groups nc t kw).1 = .ok fig →
        fig.layout.title = { text := t }) ∧
    (∀ (data : PyData) (xc yc sc cc t ac : String) (fig : Figure),
        (plot_animated_scatter data xc yc sc cc t ac).1 = .ok fig →
        fig.layout.title = { text := some t }) := by
  refine ⟨?_, ?_, ?_, ?_, ?_, ?_⟩
  · intro df x y xl yl ll t kw fig h
    simp only [plot_line, Pd.columnsOf] at h
    split at h
    · dsimp only at h
      injection h with h
      subst h
      exact ⟨rfl, rfl, rfl, rfl⟩
    · simp at h
  · intro df x y xl yl ll t kw fig h
    simp only [plot_scatter, Pd.columnsOf] at h
    split at h
    · dsimp only at h
      injection h with h
      subst h
      exact ⟨rfl, rfl, rfl, rfl⟩
    · simp at h
  · intro df x1 x2 yc xl yl ll t kw fig h
    simp only [plot_dumbbell, Pd.columnsOf, Pd.tolist, Pd.iterrows, Pd.getCol] at h
    split at h
    · dsimp only at h
      injection h with h
      subst h
      exact ⟨rfl, rfl, rfl, rfl⟩
    · simp at h
  · intro df x y orient xl yl ll t kw fig h
    simp only [plot_bar, Pd.columnsOf, Pd.len] at h
    split at h
    · simp at h
    · dsimp only at h
      injection h with h
      subst h
      exact ⟨rfl, rfl, rfl, rfl⟩
  · intro data x y1 y2 gc groups nc t kw fig h
    cases data with
    | pdict df => simp [plot_line_grid] at h
    | pyNone => simp [plot_line_grid] at h
    | pdf df =>
      simp only [plot_line_grid, Pd.columnsOf] at h
      split at h
      · simp at h
      · split at h
        · simp at h
        · split at h
          · simp at h
          · split at h
            · simp at h
            · rename_i fig0 df1 heq
              dsimp only at h
              injection h with h
              subst h
              obtain ⟨hlay, -, -⟩ := gridLoop_ok x y1 y2 gc kw nc groups.enum df
                _ fig0 (congrArg Prod.fst heq)
              have ht : fig0.layout.title = {} := by rw [hlay]; rfl
              simp [Figure.addTraceAt, Figure.addTrace, Figure.setSubplotYTitle, ht]
  · intro data xc yc sc cc t ac fig h
    simp only [plot_animated_scatter] at h
    cases hd : pxData data with
    | error e => rw [hd] at h; simp at h
    | ok df =>
      rw [hd] at h
      dsimp only at h
      cases hp : pxScatterAnimated df xc yc sc cc ac t with
      | error e => rw [hp] at h; simp at h
      | ok fig0 =>
        rw [hp] at h
        dsimp only at h
        injection h with h
        subst h
        simp only [pxScatterAnimated] at hp
        split at hp
        · injection hp with hp
          subst hp
          rfl
        · simp at hp

/-- Witness for the amended C8 theorem at concrete calls of all six
functions. -/
theorem layout_styling_witness :
    wLineFig.layout.title = stdTitle (some "tt") ∧
    wLineFig.layout.xaxis.title = some "xx" ∧
    wLineFig.layout.yaxis.title = some "yy" ∧
    wLineFig.layout.legendTitle = some "ll" ∧
    wScatFig.layout.title.fontSize = some 15 ∧
    wDumbFig.layout.title.fontSize = some 15 ∧
    wBarFig.layout.title.fontSize = some 15 ∧
    wGridFigT.layout.title = { text := some "T" } ∧
    wAnimFig.layout.title = { text := some "t" } := by
  have h1 := layout_styling.1 wDfGrid "X" (.many ["Y1", "Y2"]) (some "xx")
    (some "yy") (some "ll") (some "tt") [] wLineFig (by rfl)
  have h2 := layout_styling.2.1 wDfGrid "X" (.one "Y1") (some "xx") none none
    (some "tt") [] wScatFig (by rfl)
  have h3 := layout_styling.2.2.1 wDfDumb "Export" "Import" "Country"
    (some "Value (USD)") none none (some "Top Trade Partners") [] wDumbFig (by rfl)
  have h4 := layout_styling.2.2.2.1 wDf50 "A" "B" "h" none none none none []
    wBarFig (by rfl)
  have h5 := layout_styling.2.2.2.2.1 (.pdf wDfGrid) "X" "Y1" "Y2" "G" wGroups10 3
    (some "T") [] wGridFigT (by rfl)
  have h6 := layout_styling.2.2.2.2.2 (.pdf wDfAnim) "X" "Y" "S" "C" "t" "A"
    wAnimFig (by rfl)
  exact ⟨h1.1, h1.2.1, h1.2.2.1, h1.2.2.2, by rw [h2.1]; rfl, by rw [h3.1]; rfl,
    by rw [h4.1]; rfl, h5, h6⟩

/-- C9: every function returns the dataset object in the state it was
passed — each pandas operation the module uses is a non-mutating read
(made explicit by the state threading of the embedding) — and the module
mutates no global state (it defines none; its top-level names are the
imported libraries, never reassigned; the only effect is constructing
and returning the figure). -/
theorem no_dataset_mutation :
    (∀ (d : PyData) (x : String) (y : StrOrList) (xl yl ll t : Option String)
        (kw : Kwargs), (plot_line d x y xl yl ll t kw).2 = d) ∧
    (∀ (d : PyData) (x : String) (y : StrOrList) (xl yl ll t : Option String)
        (kw : Kwargs), (plot_scatter d x y xl yl ll t kw).2 = d) ∧
    (∀ (d : PyData) (x1 x2 : String) (y : StrOrList) (xl yl ll t : Option String)
        (kw : Kwargs), (plot_dumbbell d x1 x2 y xl yl ll t kw).2 = d) ∧
    (∀ (d : PyData) (x y orient : String) (xl yl ll t : Option String)
        (kw : Kwargs), (plot_bar d x y orient xl yl ll t kw).2 = d) ∧
    (∀ (d : PyData) (x y1 y2 gc : String) (groups : List Val) (nc : Nat)
        (t : Option String) (kw : Kwargs),
        (plot_line_grid d x y1 y2 gc groups nc t kw).2 = d) ∧
    (∀ (d : PyData) (xc yc sc cc t ac : String),
        (plot_animated_scatter d xc yc sc cc t ac).2 = d) := by
  refine ⟨?_, ?_, ?_, ?_, ?_, ?_⟩
  · intro d x y xl yl ll t kw
    cases d with
    | pdf df => simp only [plot_line, Pd.columnsOf]; split <;> rfl
    | pdict df => rfl
    | pyNone => rfl
  · intro d x y xl yl ll t kw
    cases d with
    | pdf df => simp only [plot_scatter, Pd.columnsOf]; split <;> rfl
    | pdict df => rfl
    | pyNone => rfl
  · intro d x1 x2 y xl yl ll t kw
    cases d with
    | pdf df =>
      simp only [plot_dumbbell, Pd.columnsOf, Pd.tolist, Pd.iterrows, Pd.getCol]
      split
      · cases y <;> rfl
      · rfl
    | pdict df => rfl
    | pyNone => rfl
  · intro d x y orient xl yl ll t kw
    cases d with
    | pdf df => simp only [plot_bar, Pd.columnsOf, Pd.len]; split <;> rfl
    | pdict df => rfl
    | pyNone => rfl
  · intro d x y1 y2 gc groups nc t kw
    cases d with
    | pdict df => rfl
    | pyNone => rfl
    | pdf df =>
      simp only [plot_line_grid, Pd.columnsOf]
      split
      · rfl
      · split
        · rfl
        · split
          · rfl
          · split
            · rename_i e df1 heq
              have hdf : df1 = df :=
                (congrArg Prod.snd heq).symm.trans
                  (gridLoop_state x y1 y2 gc kw nc groups.enum df _)
              rw [hdf]
            · rename_i fig0 df1 heq
              have hdf : df1 = df :=
                (congrArg Prod.snd heq).symm.trans
                  (gridLoop_state x y1 y2 gc kw nc groups.enum df _)
              rw [hdf]
  · intro d xc yc sc cc t ac
    cases d with
    | pdf df => simp only [plot_animated_scatter, pxData]; split <;> rfl
    | pdict df => simp only [plot_animated_scatter, pxData]; split <;> rfl
    | pyNone => rfl

/-- C10: a DataFrame containing the three data columns but an empty
group list makes `plot_line_grid` raise
`ValueError("No {group_col} to plot")` — line 330 has no f-string
prefix, so the braces are literal text, not an interpolated column name
— and no figure is constructed. -/
theorem empty_groups_error :
    ∀ (df : Frame) (x y1 y2 gc : String) (nc : Nat) (t : Option String) (kw : Kwargs),
      df.hasCol x = true → df.hasCol y1 = true → df.hasCol y2 = true →
      (plot_line_grid (.pdf df) x y1 y2 gc [] nc t kw).1 =
        .error (.valueError "No \x7bgroup_col\x7d to plot") := by
  intro df x y1 y2 gc nc t kw hx hy1 hy2
  simp only [Frame.hasCol] at hx hy1 hy2
  have hxm : x ∈ df.columns := by simpa using hx
  have hy1m : y1 ∈ df.columns := by simpa using hy1
  have hy2m : y2 ∈ df.columns := by simpa using hy2
  simp [plot_line_grid, Pd.columnsOf, hxm, hy1m, hy2m, gridEmptyMsg]

/-- Witness for C10 at a concrete valid frame. -/
theorem empty_groups_error_witness :
    (plot_line_grid (.pdf wDfGrid) "X" "Y1" "Y2" "G" [] 3 none []).1 =
      .error (.valueError "No \x7bgroup_col\x7d to plot") :=
  empty_groups_error wDfGrid "X" "Y1" "Y2" "G" 3 none []
    (by decide) (by decide) (by decide)

end TradeViz
